import Mathlib

/-!
Verification of the request-orchestration behavior of
`src/components/SearchBox.jsx` (repository `cf_visualiser`).

The component is embedded shallowly as an event-loop state machine:

* React state hooks (`errorMessage`, `showError`, `loader`) and the three
  caller-supplied result slots (`setUserInfo`, `setUserRatings`,
  `setUserProblems`) become fields of `MState`.
* `abortControllerRef` becomes a current-controller id plus the set of
  aborted controller ids; `AbortController.abort()` adds the current id to
  that set, and a fetch bound to an aborted id settles with an `AbortError`.
* `setTimeout` / `clearTimeout` become a list of pending timers; firing a
  timer is an explicit scheduler event, as is resuming `handleSearch` at
  each of its `await` points (the fetch itself and the body read inside
  `validateResponse`).  In the host runtime a promise continuation runs
  before the next external event, so settling and resuming are one step.
* A `throw` inside a timer callback cannot be caught by `handleSearch`'s
  `try`/`catch`; it is recorded in the `uncaught` log.
-/

/-- JS `String.prototype.includes`: `sub` occurs as a prefix of `l`. -/
def charsHeadMatch : List Char → List Char → Bool
  | [], _ => true
  | _ :: _, [] => false
  | a :: as, b :: bs => a == b && charsHeadMatch as bs

/-- `sub` occurs contiguously somewhere inside `l`. -/
def charsContains (sub : List Char) : List Char → Bool
  | [] => sub.isEmpty
  | b :: bs => charsHeadMatch sub (b :: bs) || charsContains sub bs

/-- JS `s.includes(pat)`. -/
def strIncludes (s pat : String) : Bool :=
  charsContains pat.toList s.toList

/-- JS `s.startsWith(p)`. -/
def strStartsWith (s p : String) : Bool :=
  charsHeadMatch p.toList s.toList

/-- JS `s.trim()`: strip leading and trailing whitespace. -/
def jsTrim (s : String) : String :=
  (((s.toList.dropWhile Char.isWhitespace).reverse.dropWhile Char.isWhitespace).reverse).asString

/-- A JS `Error` value: only `name` and `message` are consulted by the code. -/
structure JsError where
  name : String
  message : String
deriving DecidableEq, Repr

/-- An HTTP response as the component observes it: the declared content type,
the raw body text, and (when the body parses as JSON) the `status`,
`comment` and `result` fields of the payload.  The `result` entries are
opaque records, modelled as strings. -/
structure Response where
  contentType : String
  bodyText : String
  status : String
  comment : Option String
  resultData : List String
deriving DecidableEq, Repr

/-- Result of `validateResponse`: the parsed payload, or the thrown error. -/
inductive VResult where
  | ok (data : Response)
  | err (e : JsError)
deriving DecidableEq, Repr

/-- `validateResponse` (SearchBox.jsx lines 13-26): reject a non-JSON
content type with a diagnostic embedding the first 50 characters of the raw
body, reject a payload whose `status` is not `"OK"` with
`data.comment || "Unknown API error"` (JS `||`: an absent or empty comment
falls back), and otherwise return the payload unchanged. -/
def validateResponse (r : Response) : VResult :=
  if !(strIncludes r.contentType "application/json") then
    .err ⟨"Error", "API returned non-JSON response: " ++ r.bodyText.take 50 ++ "..."⟩
  else if r.status != "OK" then
    .err ⟨"Error",
      match r.comment with
      | some c => if c = "" then "Unknown API error" else c
      | none => "Unknown API error"⟩
  else
    .ok r

/-- The fixed multi-line message shown when the caught error's message
contains `"non-JSON"` (SearchBox.jsx lines 85-89). -/
def nonJsonDiagnostic : String :=
  "Received invalid response from Codeforces. Possible issues:\n1. Codeforces API is down\n2. Invalid handle\n3. Rate limiting"

/-- The message thrown when `VITE_CF_URL` is missing or does not start with
`"http"` (SearchBox.jsx lines 45-48). -/
def misconfiguredMsg : String :=
  "API endpoint misconfigured. Check environment variables."

/-- The error thrown by the configuration check. -/
def configError : JsError := ⟨"Error", misconfiguredMsg⟩

/-- The catch handler's classification (SearchBox.jsx lines 80-93):
`AbortError` becomes "Request cancelled", a message containing `"non-JSON"`
becomes the fixed diagnostic, anything else is surfaced verbatim. -/
def classifyError (e : JsError) : String :=
  if e.name = "AbortError" then "Request cancelled"
  else if strIncludes e.message "non-JSON" then nonJsonDiagnostic
  else e.message

/-- What a pending `setTimeout` callback will do when it fires. -/
inductive TimerKind where
  /-- The 10-second timeout (lines 51-54): abort whatever controller is
  current at firing time, then `throw` (which no handler can catch). -/
  | abortCurrent
  /-- The error auto-dismiss (line 96): `setShowError(false)`. -/
  | clearShowError
deriving DecidableEq, Repr

structure TimerEntry where
  id : Nat
  kind : TimerKind
  delayMs : Nat
deriving DecidableEq, Repr

/-- Where a suspended `handleSearch` invocation stands.  `k` is the call
index (0 = `user.info`, 1 = `user.rating`, 2 = `user.status`) and
`boundCtrl` the controller id whose signal the in-flight operation was
given when it was issued. -/
inductive Stage where
  | pendingFetch (k : Nat) (boundCtrl : Nat)
  | pendingValidate (k : Nat) (boundCtrl : Nat) (resp : Response)
  | doneOk
  | failed
deriving DecidableEq, Repr

/-- One `handleSearch` invocation: its trimmed search value, the id of its
10-second timeout timer, and its current suspension point. -/
structure SeqTask where
  id : Nat
  searchValue : String
  timeoutTimerId : Nat
  stage : Stage
deriving DecidableEq, Repr

/-- The whole component state plus scheduler bookkeeping. -/
structure MState where
  errorMessage : String
  showError : Bool
  loader : Bool
  userInfo : Option (Option String)
  userRatings : Option (List String)
  userProblems : Option (List String)
  currentCtrl : Nat
  aborted : List Nat
  nextCtrlId : Nat
  timers : List TimerEntry
  nextTimerId : Nat
  tasks : List SeqTask
  nextTaskId : Nat
  issuedCalls : List String
  uncaught : List String
deriving DecidableEq, Repr

/-- Initial state: `useState("")`, `useState(false)`, `useState(false)`,
result slots unset, `useRef(new AbortController())` (controller 0, live). -/
def initState : MState :=
  { errorMessage := ""
    showError := false
    loader := false
    userInfo := none
    userRatings := none
    userProblems := none
    currentCtrl := 0
    aborted := []
    nextCtrlId := 1
    timers := []
    nextTimerId := 0
    tasks := []
    nextTaskId := 0
    issuedCalls := []
    uncaught := [] }

/-- The environment: `import.meta.env.VITE_CF_URL` (`none` when unset), and
the response the network would deliver to task `tid`'s call `k`. -/
structure Env where
  apiBase : Option String
  response : Nat → Nat → Response

/-- Scheduler events: a form submission, resumption of a task at one of its
two kinds of `await` points, and a timer firing. -/
inductive Event where
  | submit (handle : String)
  | resumeFetch (tid : Nat)
  | resumeValidate (tid : Nat)
  | fireTimer (timerId : Nat)

def findTask (s : MState) (tid : Nat) : Option SeqTask :=
  s.tasks.find? (fun t => t.id == tid)

def setTaskStage (s : MState) (tid : Nat) (st : Stage) : MState :=
  { s with tasks := s.tasks.map (fun t => if t.id == tid then { t with stage := st } else t) }

/-- The catch handler (SearchBox.jsx lines 79-97): clear the loading flag,
classify the error, show it, and schedule `setShowError(false)` in 10
seconds.  It touches no result slot and clears no timeout timer. -/
def catchStep (s : MState) (e : JsError) : MState :=
  { s with
    loader := false
    errorMessage := classifyError e
    showError := true
    timers := s.timers ++ [⟨s.nextTimerId, .clearShowError, 10000⟩]
    nextTimerId := s.nextTimerId + 1 }

/-- Catch on behalf of a suspended task: the task is over. -/
def taskCatch (s : MState) (tid : Nat) (e : JsError) : MState :=
  catchStep (setTaskStage s tid .failed) e

/-- The error a fetch (or body read) bound to an aborted controller settles
with. -/
def abortError : JsError := ⟨"AbortError", "The user aborted a request."⟩

/-- The URL of call `k` for search value `v` (SearchBox.jsx lines 56, 63, 70). -/
def callUrl (base v : String) (k : Nat) : String :=
  if k = 0 then base ++ "user.info?handles=" ++ v
  else if k = 1 then base ++ "user.rating?handle=" ++ v
  else base ++ "user.status?handle=" ++ v

/-- The synchronous part of `handleSearch` (lines 28-57): trim the input,
abort the previous controller and install a fresh one, reset the UI state
and the three result slots, check `VITE_CF_URL`, arm the 10-second timeout,
and issue the `user.info` fetch bound to the current controller. -/
def submitStep (env : Env) (s : MState) (handle : String) : MState :=
  let v := jsTrim handle
  let s :=
    { s with
      aborted := s.currentCtrl :: s.aborted
      currentCtrl := s.nextCtrlId
      nextCtrlId := s.nextCtrlId + 1
      loader := true
      showError := false
      userInfo := none
      userRatings := none
      userProblems := none }
  match env.apiBase with
  | none => catchStep s configError
  | some base =>
    if base = "" || !(strStartsWith base "http") then
      catchStep s configError
    else
      let timerId := s.nextTimerId
      let s :=
        { s with
          timers := s.timers ++ [TimerEntry.mk timerId .abortCurrent 10000]
          nextTimerId := timerId + 1 }
      { s with
        issuedCalls := s.issuedCalls ++ [callUrl base v 0]
        tasks := s.tasks ++ [SeqTask.mk s.nextTaskId v timerId (.pendingFetch 0 s.currentCtrl)]
        nextTaskId := s.nextTaskId + 1 }

/-- Resume a task whose fetch settled.  A fetch bound to an aborted
controller rejects with `AbortError` and control moves to the catch
handler; otherwise the response arrives and `validateResponse`'s body read
begins (bound to the same signal). -/
def resumeFetchStep (env : Env) (s : MState) (tid : Nat) : MState :=
  match findTask s tid with
  | some t =>
    match t.stage with
    | .pendingFetch k b =>
      if s.aborted.contains b then
        taskCatch s tid abortError
      else
        setTaskStage s tid (.pendingValidate k b (env.response tid k))
    | _ => s
  | none => s

/-- Resume a task whose `validateResponse` settled: on abort or a validation
error, run the catch handler; on success, report the payload into the slot
for call `k` and either issue the next fetch — bound to whatever controller
is current *now* — or, after call 2, clear the timeout timer and the
loading flag (lines 56-78). -/
def resumeValidateStep (env : Env) (s : MState) (tid : Nat) : MState :=
  match findTask s tid with
  | some t =>
    match t.stage with
    | .pendingValidate k b r =>
      if s.aborted.contains b then
        taskCatch s tid abortError
      else
        match validateResponse r with
        | .err e => taskCatch s tid e
        | .ok data =>
          let base := env.apiBase.getD ""
          if k = 0 then
            let s := { s with userInfo := some data.resultData.head? }
            let s := setTaskStage s tid (.pendingFetch 1 s.currentCtrl)
            { s with issuedCalls := s.issuedCalls ++ [callUrl base t.searchValue 1] }
          else if k = 1 then
            let s := { s with userRatings := some data.resultData }
            let s := setTaskStage s tid (.pendingFetch 2 s.currentCtrl)
            { s with issuedCalls := s.issuedCalls ++ [callUrl base t.searchValue 2] }
          else
            let s := { s with userProblems := some data.resultData }
            let s := { s with timers := s.timers.filter (fun tm => tm.id != t.timeoutTimerId) }
            let s := { s with loader := false }
            setTaskStage s tid .doneOk
    | _ => s
  | none => s

/-- Fire a pending timer.  The timeout timer aborts whatever controller is
current at that moment and then throws; that throw happens on the timer's
own stack, outside every `try`, so it is recorded as uncaught.  The
auto-dismiss timer hides whatever error is showing. -/
def fireTimerStep (s : MState) (timerId : Nat) : MState :=
  match s.timers.find? (fun tm => tm.id == timerId) with
  | some tm =>
    let s := { s with timers := s.timers.filter (fun x => x.id != timerId) }
    match tm.kind with
    | .abortCurrent =>
      { s with
        aborted := s.currentCtrl :: s.aborted
        uncaught := s.uncaught ++ ["Request timed out (10 seconds)"] }
    | .clearShowError => { s with showError := false }
  | none => s

def step (env : Env) (s : MState) : Event → MState
  | .submit h => submitStep env s h
  | .resumeFetch tid => resumeFetchStep env s tid
  | .resumeValidate tid => resumeValidateStep env s tid
  | .fireTimer timerId => fireTimerStep s timerId

def runTrace (env : Env) (events : List Event) : MState :=
  events.foldl (step env) initState

/-! ### Concrete environments and traces used by the claims -/

/-- A JSON response with `status: "OK"` whose `result` holds one opaque
record. -/
def rOk (k : Nat) : Response :=
  { contentType := "application/json", bodyText := "", status := "OK",
    comment := none, resultData := ["d" ++ toString k] }

/-- A valid base URL and an all-OK network. -/
def envGood : Env := { apiBase := some "https://cf/api/", response := fun _ k => rOk k }

/-- A valid base URL; every call returns JSON with `status: "FAILED"` and a
comment naming the submission it answers. -/
def envBadStatus : Env :=
  { apiBase := some "https://cf/api/",
    response := fun tid _ =>
      { contentType := "application/json", bodyText := "", status := "FAILED",
        comment := some (if tid = 0 then "err0" else "err1"), resultData := [] } }

/-- `VITE_CF_URL` unset. -/
def envNoBase : Env := { apiBase := none, response := fun _ k => rOk k }

/-- A base URL that starts with "http" yet is not a URL at all. -/
def envNotUrl : Env := { apiBase := some "httpgarbage", response := fun _ k => rOk k }

/-- An HTML error page in place of the JSON payload. -/
def htmlResp : Response :=
  { contentType := "text/html; charset=UTF-8",
    bodyText := "<html><head><title>Codeforces is temporarily unavailable</title></head>",
    status := "", comment := none, resultData := [] }

def envHtml : Env := { apiBase := some "https://cf/api/", response := fun _ _ => htmlResp }

/-- Call 0 succeeds; later calls fail with an API comment that happens to
contain the substring "non-JSON". -/
def envTrick : Env :=
  { apiBase := some "https://cf/api/",
    response := fun _ k =>
      if k = 0 then rOk 0
      else { contentType := "application/json", bodyText := "", status := "FAILED",
             comment := some "upstream proxy returned non-JSON data", resultData := [] } }

/-- Call 0 succeeds; later calls fail with an ordinary API comment. -/
def envFailSecond : Env :=
  { apiBase := some "https://cf/api/",
    response := fun _ k =>
      if k = 0 then rOk 0
      else { contentType := "application/json", bodyText := "", status := "FAILED",
             comment := some "Rating fetch failed", resultData := [] } }

/-- A JSON API-error response with an ordinary comment. -/
def apiErrResp : Response :=
  { contentType := "application/json", bodyText := "", status := "FAILED",
    comment := some "handles: User with handle zz not found", resultData := [] }

/-- One submission keyed to three fixed responses, one per call index. -/
def envOf (base : String) (r0 r1 r2 : Response) : Env :=
  { apiBase := some base,
    response := fun _ k => if k = 0 then r0 else if k = 1 then r1 else r2 }

/-- One submission carried through call 0 (fetch and validation). -/
def trCall1 (h : String) : List Event := [.submit h, .resumeFetch 0, .resumeValidate 0]

/-- ... through call 1. -/
def trCall2 (h : String) : List Event := trCall1 h ++ [.resumeFetch 0, .resumeValidate 0]

/-- ... through call 2 (the whole sequence). -/
def trCall3 (h : String) : List Event := trCall2 h ++ [.resumeFetch 0, .resumeValidate 0]

/-- Two rapid submissions: the second starts while the first's `user.info`
fetch is in flight; then that fetch settles. -/
def trC1 : List Event := [.submit "a", .submit "b", .resumeFetch 0]

/-- Submission "a" fails on its first call, then submission "b" starts. -/
def trC7a : List Event := [.submit "a", .resumeFetch 0, .resumeValidate 0, .submit "b"]

/-- Submission "a" fails, submission "b" starts and fails too. -/
def trC8 : List Event :=
  [.submit "a", .resumeFetch 0, .resumeValidate 0, .submit "b", .resumeFetch 1, .resumeValidate 1]

/-- State where submission "a" is suspended inside `validateResponse` for
its first call when submission "b" starts (aborting "a"'s controller). -/
def s0v : MState := runTrace envGood [.submit "a", .resumeFetch 0, .submit "b"]

/-- Following the spec's words (a refinement-side definition, not taken from
the code): a well-formed absolute HTTP(S) URL — the scheme "http://" or
"https://" followed by a nonempty remainder. -/
def isWellFormedAbsoluteHttpUrl (u : String) : Bool :=
  (strStartsWith u "http://" && decide (7 < u.length)) ||
  (strStartsWith u "https://" && decide (8 < u.length))

/-! ### Helper lemmas -/

lemma charsHeadMatch_append (sub l m : List Char) (hp : charsHeadMatch sub l = true) :
    charsHeadMatch sub (l ++ m) = true := by
  induction sub generalizing l with
  | nil => simp [charsHeadMatch]
  | cons a as ih =>
    cases l with
    | nil => simp [charsHeadMatch] at hp
    | cons b bs =>
      simp only [charsHeadMatch, Bool.and_eq_true, beq_iff_eq] at hp
      simp only [List.cons_append, charsHeadMatch, Bool.and_eq_true, beq_iff_eq]
      exact ⟨hp.1, ih bs hp.2⟩

lemma charsContains_nil_sub (l : List Char) : charsContains [] l = true := by
  cases l with
  | nil => rfl
  | cons b bs => simp [charsContains, charsHeadMatch]

lemma charsContains_append_left (sub l m : List Char) (hi : charsContains sub l = true) :
    charsContains sub (l ++ m) = true := by
  induction l with
  | nil =>
    have hsub : sub = [] := by
      cases sub with
      | nil => rfl
      | cons a as => simp [charsContains] at hi
    subst hsub; exact charsContains_nil_sub (([] : List Char) ++ m)
  | cons b bs ih =>
    simp only [charsContains, Bool.or_eq_true] at hi
    rcases hi with hp | hi
    · simp only [List.cons_append, charsContains, Bool.or_eq_true]
      exact Or.inl (charsHeadMatch_append _ _ _ hp)
    · simp only [List.cons_append, charsContains, Bool.or_eq_true]
      exact Or.inr (ih hi)

lemma strIncludes_append_left (a b pat : String) (h : strIncludes a pat = true) :
    strIncludes (a ++ b) pat = true := by
  have htl : (a ++ b).toList = a.toList ++ b.toList := by
    cases a; cases b; rfl
  unfold strIncludes at h ⊢
  rw [htl]
  exact charsContains_append_left _ _ _ h

lemma classify_config : classifyError configError = misconfiguredMsg := by decide

lemma classify_abort : classifyError abortError = "Request cancelled" := by decide

lemma classify_nonJson (m : String) (hm : strIncludes m "non-JSON" = true) :
    classifyError ⟨"Error", m⟩ = nonJsonDiagnostic := by
  unfold classifyError
  rw [if_neg (by decide : ¬ ("Error" = "AbortError")), if_pos hm]

lemma classify_plain (m : String) (hm : strIncludes m "non-JSON" = false) :
    classifyError ⟨"Error", m⟩ = m := by
  unfold classifyError
  rw [if_neg (by decide : ¬ ("Error" = "AbortError")), if_neg (by simp [hm])]

lemma nonJson_msg_includes (body : String) :
    strIncludes ("API returned non-JSON response: " ++ body ++ "...") "non-JSON" = true := by
  apply strIncludes_append_left
  apply strIncludes_append_left
  decide

lemma submit_cond_false (base : String) (hb : strStartsWith base "http" = true) :
    (decide (base = "") || !strStartsWith base "http") = false := by
  rw [hb]
  by_cases hbe : base = ""
  · subst hbe; exact absurd hb (by decide)
  · simp [hbe]

lemma validate_ok (r : Response) (hct : strIncludes r.contentType "application/json" = true)
    (hst : r.status = "OK") : validateResponse r = .ok r := by
  simp [validateResponse, hct, hst]

lemma validate_apiError (r : Response) (c : String)
    (hct : strIncludes r.contentType "application/json" = true)
    (hst : r.status ≠ "OK") (hcom : r.comment = some c) (hcne : c ≠ "") :
    validateResponse r = VResult.err ⟨"Error", c⟩ := by
  simp [validateResponse, hct, hcom, hst, hcne]

lemma find?_stage_map (tid : Nat) (st : Stage) (l : List SeqTask) :
    (l.map (fun t => if t.id == tid then { t with stage := st } else t)).find?
        (fun t => t.id == tid)
      = (l.find? (fun t => t.id == tid)).map (fun t => { t with stage := st }) := by
  induction l with
  | nil => rfl
  | cons a l ih =>
    by_cases h : (a.id == tid) = true
    · simp [List.find?, h]
    · have hf : (a.id == tid) = false := by simpa using h
      rw [List.map_cons, if_neg h]
      simp only [List.find?, hf]
      exact ih

lemma findTask_taskCatch (s : MState) (tid : Nat) (e : JsError) (t : SeqTask)
    (hfind : findTask s tid = some t) :
    findTask (taskCatch s tid e) tid = some { t with stage := Stage.failed } := by
  have hmap : findTask (taskCatch s tid e) tid
      = (findTask s tid).map (fun u => { u with stage := Stage.failed }) := by
    unfold findTask taskCatch catchStep setTaskStage
    exact find?_stage_map tid Stage.failed s.tasks
  rw [hmap, hfind]
  rfl

/-! ### Claim theorems -/

/-- Claim C1, counterexample: the claim says that when a second submission
starts before the first sequence terminates, no error originating from the
superseded first sequence is ever reported after the second begins.  In the
code the superseded sequence's catch handler still runs: after submissions
"a" and "b" in rapid succession, once "a"'s aborted `user.info` fetch
settles — while "b" is still awaiting its own first fetch — the component
already shows "Request cancelled" (the first sequence's terminal outcome)
and the first sequence has also cleared the loading flag that "b" set. -/
theorem c1_counterexample :
    (runTrace envGood trC1).showError = true ∧
    (runTrace envGood trC1).errorMessage = "Request cancelled" ∧
    (runTrace envGood trC1).loader = false ∧
    findTask (runTrace envGood trC1) 1 = some (SeqTask.mk 1 "b" 1 (.pendingFetch 0 2)) := by
  decide

/-- Claim C1 (amended): a superseded sequence can report a Cancelled error
after the second submission begins, but it never reports a stale result:
resuming a sequence whose bound controller has been aborted — whether it is
suspended in a fetch or inside `validateResponse` (the only step that can
write a result slot) — leaves all three result slots and the issued-call
list unchanged, reports "Request cancelled", and marks the sequence
failed. -/
theorem c1_amended_no_stale_result (env : Env) (s : MState) (tid : Nat) (t : SeqTask)
    (hfind : findTask s tid = some t) :
    (∀ k b, t.stage = Stage.pendingFetch k b → s.aborted.contains b = true →
      (resumeFetchStep env s tid).userInfo = s.userInfo ∧
      (resumeFetchStep env s tid).userRatings = s.userRatings ∧
      (resumeFetchStep env s tid).userProblems = s.userProblems ∧
      (resumeFetchStep env s tid).issuedCalls = s.issuedCalls ∧
      (resumeFetchStep env s tid).errorMessage = "Request cancelled" ∧
      (resumeFetchStep env s tid).showError = true ∧
      (resumeFetchStep env s tid).loader = false ∧
      findTask (resumeFetchStep env s tid) tid = some { t with stage := Stage.failed }) ∧
    (∀ k b r, t.stage = Stage.pendingValidate k b r → s.aborted.contains b = true →
      (resumeValidateStep env s tid).userInfo = s.userInfo ∧
      (resumeValidateStep env s tid).userRatings = s.userRatings ∧
      (resumeValidateStep env s tid).userProblems = s.userProblems ∧
      (resumeValidateStep env s tid).issuedCalls = s.issuedCalls ∧
      (resumeValidateStep env s tid).errorMessage = "Request cancelled" ∧
      (resumeValidateStep env s tid).showError = true ∧
      (resumeValidateStep env s tid).loader = false ∧
      findTask (resumeValidateStep env s tid) tid = some { t with stage := Stage.failed }) := by
  constructor
  · intro k b hstage habort
    have hm : b ∈ s.aborted := by simpa using habort
    have hred : resumeFetchStep env s tid = taskCatch s tid abortError := by
      unfold resumeFetchStep
      rw [hfind]
      simp [hstage, hm]
    rw [hred]
    refine ⟨?_, ?_, ?_, ?_, ?_, ?_, ?_, findTask_taskCatch s tid abortError t hfind⟩ <;>
      simp [taskCatch, catchStep, setTaskStage, classify_abort]
  · intro k b r hstage habort
    have hm : b ∈ s.aborted := by simpa using habort
    have hred : resumeValidateStep env s tid = taskCatch s tid abortError := by
      unfold resumeValidateStep
      rw [hfind]
      simp [hstage, hm]
    rw [hred]
    refine ⟨?_, ?_, ?_, ?_, ?_, ?_, ?_, findTask_taskCatch s tid abortError t hfind⟩ <;>
      simp [taskCatch, catchStep, setTaskStage, classify_abort]

/-- Witness for C1 (amended): submission "a" is suspended inside
`validateResponse` for its first call when submission "b" aborts its token;
resuming it writes no slot, reports "Request cancelled", and fails the
sequence. -/
theorem c1_amended_no_stale_result_witness :
    findTask s0v 0 = some (SeqTask.mk 0 "a" 0 (Stage.pendingValidate 0 1 (rOk 0))) ∧
    s0v.aborted.contains 1 = true ∧
    (resumeValidateStep envGood s0v 0).userInfo = s0v.userInfo ∧
    (resumeValidateStep envGood s0v 0).userRatings = s0v.userRatings ∧
    (resumeValidateStep envGood s0v 0).userProblems = s0v.userProblems ∧
    (resumeValidateStep envGood s0v 0).errorMessage = "Request cancelled" ∧
    findTask (resumeValidateStep envGood s0v 0) 0 = some (SeqTask.mk 0 "a" 0 Stage.failed) := by
  have hh := c1_amended_no_stale_result envGood s0v 0
    (SeqTask.mk 0 "a" 0 (Stage.pendingValidate 0 1 (rOk 0))) (by decide)
  have hv := hh.2 0 1 (rOk 0) rfl (by decide)
  exact ⟨by decide, by decide, hv.1, hv.2.1, hv.2.2.1, hv.2.2.2.2.1, hv.2.2.2.2.2.2.2⟩

/-- Claim C2, counterexample: the claim covers every base URL that is not a
well-formed absolute HTTP(S) URL, but the code only tests
`API_BASE.startsWith("http")`: with base "httpgarbage" — not a well-formed
URL — a submission still issues a network call and reports no
configuration error. -/
theorem c2_counterexample :
    isWellFormedAbsoluteHttpUrl "httpgarbage" = false ∧
    (runTrace envNotUrl [Event.submit "x"]).issuedCalls = ["httpgarbageuser.info?handles=x"] ∧
    (runTrace envNotUrl [Event.submit "x"]).errorMessage ≠ misconfiguredMsg ∧
    (runTrace envNotUrl [Event.submit "x"]).showError = false := by
  decide

/-- Claim C2 (amended): on every submission, from any prior state, if the
configured base URL is absent, empty, or does not start with "http", the
submission issues no network call, spawns no fetch sequence, arms no
timeout timer (only the error auto-dismiss timer is scheduled), and
reports the configuration-error message. -/
theorem c2_amended_config_check (env : Env) (s : MState) (h : String)
    (hbad : ∀ b, env.apiBase = some b → b = "" ∨ strStartsWith b "http" = false) :
    (submitStep env s h).issuedCalls = s.issuedCalls ∧
    (submitStep env s h).tasks = s.tasks ∧
    (submitStep env s h).timers
      = s.timers ++ [TimerEntry.mk s.nextTimerId TimerKind.clearShowError 10000] ∧
    (submitStep env s h).errorMessage = misconfiguredMsg ∧
    (submitStep env s h).showError = true ∧
    (submitStep env s h).loader = false := by
  unfold submitStep
  cases henv : env.apiBase with
  | none => simp [catchStep, classify_config]
  | some base =>
    rcases hbad base henv with hb | hb
    · subst hb
      simp [catchStep, classify_config]
    · simp [hb, catchStep, classify_config]

/-- Witness for C2 (amended) with the base URL unset. -/
theorem c2_amended_config_check_witness :
    (submitStep envNoBase initState "x").issuedCalls = initState.issuedCalls ∧
    (submitStep envNoBase initState "x").errorMessage = misconfiguredMsg ∧
    (submitStep envNoBase initState "x").showError = true := by
  have hh := c2_amended_config_check envNoBase initState "x"
    (fun b hb => by simp [envNoBase] at hb)
  exact ⟨hh.1, hh.2.2.2.1, hh.2.2.2.2.1⟩

/-- Claim C3: when all three calls return JSON with `status: "OK"`, the
three result slots are populated in call order with the payloads' result
fields, the loading flag is cleared, the timeout timer is cleared (no timer
remains pending), no error is shown, and the calls are issued strictly
sequentially: after call 0 resolves but before its payload is validated
only one URL has been issued, and call 1's URL is issued in the same step
that reports call 0's validated payload. -/
theorem c3_success_sequential (base h : String) (r0 r1 r2 : Response)
    (hb : strStartsWith base "http" = true)
    (hct0 : strIncludes r0.contentType "application/json" = true) (hst0 : r0.status = "OK")
    (hct1 : strIncludes r1.contentType "application/json" = true) (hst1 : r1.status = "OK")
    (hct2 : strIncludes r2.contentType "application/json" = true) (hst2 : r2.status = "OK") :
    (runTrace (envOf base r0 r1 r2) (trCall3 h)).userInfo = some r0.resultData.head? ∧
    (runTrace (envOf base r0 r1 r2) (trCall3 h)).userRatings = some r1.resultData ∧
    (runTrace (envOf base r0 r1 r2) (trCall3 h)).userProblems = some r2.resultData ∧
    (runTrace (envOf base r0 r1 r2) (trCall3 h)).loader = false ∧
    (runTrace (envOf base r0 r1 r2) (trCall3 h)).showError = false ∧
    (runTrace (envOf base r0 r1 r2) (trCall3 h)).timers = [] ∧
    (runTrace (envOf base r0 r1 r2) (trCall3 h)).issuedCalls
      = [callUrl base (jsTrim h) 0, callUrl base (jsTrim h) 1, callUrl base (jsTrim h) 2] ∧
    (runTrace (envOf base r0 r1 r2) [Event.submit h, Event.resumeFetch 0]).issuedCalls
      = [callUrl base (jsTrim h) 0] ∧
    (runTrace (envOf base r0 r1 r2) (trCall1 h)).issuedCalls
      = [callUrl base (jsTrim h) 0, callUrl base (jsTrim h) 1] ∧
    (runTrace (envOf base r0 r1 r2) (trCall1 h)).userInfo = some r0.resultData.head? := by
  simp [runTrace, step, submitStep, resumeFetchStep, resumeValidateStep, findTask,
    setTaskStage, taskCatch, catchStep, initState, envOf, trCall1, trCall2, trCall3,
    submit_cond_false base hb, validate_ok r0 hct0 hst0, validate_ok r1 hct1 hst1,
    validate_ok r2 hct2 hst2, List.find?, List.contains]

/-- Witness for C3 at a concrete all-OK environment. -/
theorem c3_success_sequential_witness :
    strStartsWith "https://cf/api/" "http" = true ∧
    (runTrace (envOf "https://cf/api/" (rOk 0) (rOk 1) (rOk 2)) (trCall3 "x")).userInfo
      = some (rOk 0).resultData.head? ∧
    (runTrace (envOf "https://cf/api/" (rOk 0) (rOk 1) (rOk 2)) (trCall3 "x")).timers = [] := by
  have hh := c3_success_sequential "https://cf/api/" "x" (rOk 0) (rOk 1) (rOk 2) (by decide)
    (by decide) (by decide) (by decide) (by decide) (by decide) (by decide)
  exact ⟨by decide, hh.1, hh.2.2.2.2.2.1⟩

set_option maxRecDepth 4000 in
/-- Claim C4, counterexample: the claim says the reported NonJsonResponse
diagnostic embeds the first ~50 characters of the raw body.  The code
embeds those characters only in the *thrown* error; what it *reports* is a
fixed multi-line message that does not contain the body snippet. -/
theorem c4_counterexample :
    (runTrace envHtml (trCall1 "x")).errorMessage = nonJsonDiagnostic ∧
    strIncludes (runTrace envHtml (trCall1 "x")).errorMessage (htmlResp.bodyText.take 50)
      = false ∧
    (runTrace envHtml (trCall1 "x")).issuedCalls = [callUrl "https://cf/api/" "x" 0] := by
  decide

/-- Claim C4 (amended): when the `user.info` response's content type is not
JSON, the reported error is the fixed NonJsonResponse diagnostic (the
thrown validation error — not the reported message — embeds the first 50
characters of the raw body), the loading flag is cleared, and neither the
rating call nor the submission call is ever issued. -/
theorem c4_amended_nonjson_diagnostic (base h : String) (r0 r1 r2 : Response)
    (hb : strStartsWith base "http" = true)
    (hct0 : strIncludes r0.contentType "application/json" = false) :
    (runTrace (envOf base r0 r1 r2) (trCall1 h)).errorMessage = nonJsonDiagnostic ∧
    (runTrace (envOf base r0 r1 r2) (trCall1 h)).showError = true ∧
    (runTrace (envOf base r0 r1 r2) (trCall1 h)).loader = false ∧
    (runTrace (envOf base r0 r1 r2) (trCall1 h)).issuedCalls = [callUrl base (jsTrim h) 0] ∧
    validateResponse r0
      = VResult.err ⟨"Error", "API returned non-JSON response: " ++ r0.bodyText.take 50 ++ "..."⟩ := by
  have hv : validateResponse r0
      = VResult.err ⟨"Error", "API returned non-JSON response: " ++ r0.bodyText.take 50 ++ "..."⟩ := by
    simp [validateResponse, hct0]
  refine ⟨?_, ?_, ?_, ?_, hv⟩ <;>
  simp [runTrace, step, submitStep, resumeFetchStep, resumeValidateStep, findTask, setTaskStage,
    taskCatch, catchStep, initState, envOf, trCall1, submit_cond_false base hb, hv,
    classify_nonJson _ (nonJson_msg_includes (r0.bodyText.take 50))]

/-- Witness for C4 (amended) at the HTML error page. -/
theorem c4_amended_nonjson_diagnostic_witness :
    strIncludes htmlResp.contentType "application/json" = false ∧
    (runTrace (envOf "https://cf/api/" htmlResp htmlResp htmlResp) (trCall1 "x")).errorMessage
      = nonJsonDiagnostic := by
  have hh := c4_amended_nonjson_diagnostic "https://cf/api/" "x" htmlResp htmlResp htmlResp
    (by decide) (by decide)
  exact ⟨by decide, hh.1⟩

/-- Claim C5, counterexample: the claim says the rating payload's comment is
reported verbatim whenever present.  The catch handler classifies by the
substring "non-JSON": a comment that happens to contain "non-JSON" is
replaced by the fixed diagnostic instead of being shown verbatim. -/
theorem c5_counterexample :
    (envTrick.response 0 1).status ≠ "OK" ∧
    (envTrick.response 0 1).comment = some "upstream proxy returned non-JSON data" ∧
    (runTrace envTrick (trCall2 "x")).errorMessage ≠ "upstream proxy returned non-JSON data" ∧
    (runTrace envTrick (trCall2 "x")).errorMessage = nonJsonDiagnostic := by
  decide

/-- Claim C5 (amended): when the `user.info` call succeeds and the rating
payload has `status != "OK"` with a nonempty comment that does not contain
the substring "non-JSON", the comment is reported verbatim, the
`user.status` (submission-history) call is never issued, and the profile
slot keeps the value call 0 reported.  (The generic fallback
"Unknown API error" is used when the comment is absent or empty.) -/
theorem c5_amended_comment_verbatim (base h : String) (r0 r1 r2 : Response) (c : String)
    (hb : strStartsWith base "http" = true)
    (hct0 : strIncludes r0.contentType "application/json" = true) (hst0 : r0.status = "OK")
    (hct1 : strIncludes r1.contentType "application/json" = true)
    (hst1 : r1.status ≠ "OK") (hcom : r1.comment = some c) (hcne : c ≠ "")
    (hcj : strIncludes c "non-JSON" = false) :
    (runTrace (envOf base r0 r1 r2) (trCall2 h)).errorMessage = c ∧
    (runTrace (envOf base r0 r1 r2) (trCall2 h)).showError = true ∧
    (runTrace (envOf base r0 r1 r2) (trCall2 h)).loader = false ∧
    (runTrace (envOf base r0 r1 r2) (trCall2 h)).issuedCalls
      = [callUrl base (jsTrim h) 0, callUrl base (jsTrim h) 1] ∧
    (runTrace (envOf base r0 r1 r2) (trCall2 h)).userInfo = some r0.resultData.head? := by
  simp [runTrace, step, submitStep, resumeFetchStep, resumeValidateStep, findTask, setTaskStage,
    taskCatch, catchStep, initState, envOf, trCall1, trCall2, submit_cond_false base hb,
    validate_ok r0 hct0 hst0, validate_apiError r1 c hct1 hst1 hcom hcne, classify_plain c hcj]

/-- Witness for C5 (amended) at an ordinary API-error comment. -/
theorem c5_amended_comment_verbatim_witness :
    apiErrResp.status ≠ "OK" ∧
    apiErrResp.comment = some "handles: User with handle zz not found" ∧
    (runTrace (envOf "https://cf/api/" (rOk 0) apiErrResp (rOk 2)) (trCall2 "x")).errorMessage
      = "handles: User with handle zz not found" := by
  have hh := c5_amended_comment_verbatim "https://cf/api/" "x" (rOk 0) apiErrResp (rOk 2)
    "handles: User with handle zz not found" (by decide) (by decide) (by decide) (by decide)
    (by decide) (by decide) (by decide) (by decide)
  exact ⟨by decide, by decide, hh.1⟩

/-- Claim C6: when no response has arrived and the 10-second timer fires,
the timer aborts the submission's controller (invalidating its token), the
sequence's fetch then settles as cancelled and the reported outcome is the
"Request cancelled" error with no result slot populated; afterwards, any
further resume event for that sequence is a no-op, so no late result is
ever reported. -/
theorem c6_timeout_cancels (env : Env) (h base : String)
    (henv : env.apiBase = some base) (hb : strStartsWith base "http" = true) :
    (runTrace env [Event.submit h]).currentCtrl = 1 ∧
    (runTrace env [Event.submit h, Event.fireTimer 0]).aborted = [1, 0] ∧
    (runTrace env [Event.submit h, Event.fireTimer 0, Event.resumeFetch 0]).errorMessage
      = "Request cancelled" ∧
    (runTrace env [Event.submit h, Event.fireTimer 0, Event.resumeFetch 0]).showError = true ∧
    (runTrace env [Event.submit h, Event.fireTimer 0, Event.resumeFetch 0]).loader = false ∧
    (runTrace env [Event.submit h, Event.fireTimer 0, Event.resumeFetch 0]).userInfo = none ∧
    (runTrace env [Event.submit h, Event.fireTimer 0, Event.resumeFetch 0]).userRatings = none ∧
    (runTrace env [Event.submit h, Event.fireTimer 0, Event.resumeFetch 0]).userProblems = none ∧
    step env (runTrace env [Event.submit h, Event.fireTimer 0, Event.resumeFetch 0])
        (Event.resumeFetch 0)
      = runTrace env [Event.submit h, Event.fireTimer 0, Event.resumeFetch 0] ∧
    step env (runTrace env [Event.submit h, Event.fireTimer 0, Event.resumeFetch 0])
        (Event.resumeValidate 0)
      = runTrace env [Event.submit h, Event.fireTimer 0, Event.resumeFetch 0] := by
  simp [runTrace, step, submitStep, resumeFetchStep, resumeValidateStep, fireTimerStep, findTask,
    setTaskStage, taskCatch, catchStep, initState, henv, submit_cond_false base hb, classify_abort]

/-- Witness for C6 at the all-OK environment. -/
theorem c6_timeout_cancels_witness :
    envGood.apiBase = some "https://cf/api/" ∧
    (runTrace envGood [Event.submit "a", Event.fireTimer 0, Event.resumeFetch 0]).errorMessage
      = "Request cancelled" := by
  have hh := c6_timeout_cancels envGood "a" "https://cf/api/" (by decide) (by decide)
  exact ⟨by decide, hh.2.2.1⟩

/-- Claim C7: the claim says the timeout timer is disarmed whenever a
sequence completes, fails, or is superseded.  In the code `clearTimeout`
runs only on the full-success path: after submission "a" fails on its
first call and submission "b" starts, "a"'s 10-second timer is still
pending; when it fires it aborts the controller that is *current* at that
moment — submission "b"'s token — and "b" is then reported as
"Request cancelled". -/
theorem c7_timer_not_released :
    (runTrace envBadStatus trC7a).timers.find? (fun tm => tm.id == 0)
       = some (TimerEntry.mk 0 .abortCurrent 10000) ∧
    ((runTrace envBadStatus (trC7a ++ [.fireTimer 0])).aborted.contains
       (runTrace envBadStatus (trC7a ++ [.fireTimer 0])).currentCtrl = true) ∧
    ((runTrace envBadStatus trC7a).aborted.contains
       (runTrace envBadStatus trC7a).currentCtrl = false) ∧
    (runTrace envBadStatus (trC7a ++ [.fireTimer 0, .resumeFetch 1])).errorMessage
      = "Request cancelled" := by
  decide

/-- Claim C8: the claim says a superseded submission's error-clearing timer
never dismisses a later submission's error.  The code never cancels that
timer: after submission "a"'s error is shown (scheduling auto-dismiss
timer 1) and submission "b" then shows its own error "err1", firing
timer 1 hides "b"'s error. -/
theorem c8_stale_clear_timer :
    (runTrace envBadStatus trC8).showError = true ∧
    (runTrace envBadStatus trC8).errorMessage = "err1" ∧
    (runTrace envBadStatus trC8).timers.find? (fun tm => tm.id == 1)
      = some (TimerEntry.mk 1 .clearShowError 10000) ∧
    (runTrace envBadStatus (trC8 ++ [.fireTimer 1])).showError = false ∧
    (runTrace envBadStatus (trC8 ++ [.fireTimer 1])).errorMessage = "err1" := by
  decide

/-- Claim C9: the claim says every failure mode, including the timeout
mechanism's, is caught at the coordinator boundary.  The timeout callback's
`throw new Error("Request timed out (10 seconds)")` runs on the timer's own
stack, outside the `try`/`catch`: when the timer fires, that exception
escapes uncaught (the user-visible outcome comes from the abort instead). -/
theorem c9_uncaught_timer_throw :
    (runTrace envGood [Event.submit "a", Event.fireTimer 0]).uncaught
      = ["Request timed out (10 seconds)"] ∧
    (runTrace envGood [Event.submit "a"]).uncaught = [] := by
  decide

/-- Claim C10: the catch handler only clears the loading flag, sets the
classified error message, shows it, and schedules its auto-dismissal; it
never touches the profile, ratings, or submissions slots — so every slot
set by an earlier call keeps its reported value through the error path.
Concretely: when the rating call fails after `user.info` succeeded, the
profile slot still holds call 0's payload while the error is shown. -/
theorem c10_catch_preserves_slots :
    (∀ (s : MState) (e : JsError),
      (catchStep s e).userInfo = s.userInfo ∧
      (catchStep s e).userRatings = s.userRatings ∧
      (catchStep s e).userProblems = s.userProblems ∧
      (catchStep s e).loader = false ∧
      (catchStep s e).showError = true ∧
      (catchStep s e).errorMessage = classifyError e) ∧
    (runTrace envFailSecond (trCall2 "x")).userInfo = some (some "d0") ∧
    (runTrace envFailSecond (trCall2 "x")).errorMessage = "Rating fetch failed" ∧
    (runTrace envFailSecond (trCall2 "x")).showError = true := by
  refine ⟨fun s e => ?_, ?_⟩
  · simp [catchStep]
  · decide
